import Mathlib

/-!
Shallow embedding of the chat page controller of the Ticket repository
(`src/routes/+page.svelte` together with its data module
`src/lib/data/conversations.ts`), and proofs about it.

JavaScript strings are modelled by Lean `String` through its logical
`List Char` view; `Date.now()` values and message ids, which the code
obtains from the clock and `Math.random()`, are passed in as explicit
parameters of the operations that consume them.
-/

set_option maxRecDepth 4096

namespace Ticket

/-- Models `String.prototype.toLowerCase()` (ASCII case folding). -/
def jsToLowerCase (s : String) : String := ⟨s.data.map Char.toLower⟩

/-- Models `s.substring(0, stop)`: the first `stop` characters of `s`. -/
def jsSubstringTo (s : String) (stop : Nat) : String := ⟨s.data.take stop⟩

/-- Contiguous-occurrence test on character lists, scanning left to right. -/
def listIncludes (pat : List Char) : List Char → Bool
  | [] => pat.isEmpty
  | c :: t => pat.isPrefixOf (c :: t) || listIncludes pat t

/-- Models `s.includes(pat)` on JavaScript strings. -/
def jsIncludes (s pat : String) : Bool := listIncludes pat.data s.data

/-- Models `String.prototype.trim()`: strips whitespace at both ends. -/
def jsTrim (s : String) : String :=
  ⟨((s.data.dropWhile Char.isWhitespace).reverse.dropWhile Char.isWhitespace).reverse⟩

/-- The `from` field of a `ChatMessage`: user or model. -/
inductive Sender where
  | user
  | model
deriving DecidableEq

/-- Message lifecycle tag: sending, processing, complete, or error. -/
inductive MessageStatus where
  | sending
  | processing
  | complete
  | error
deriving DecidableEq

/-- `ChatMessage` from `src/lib/data/conversations.ts`. -/
structure ChatMessage where
  id : String
  «from» : Sender
  content : String
  timestamp : Nat
  status : Option MessageStatus
deriving DecidableEq

/-- `Conversation` from `src/lib/data/conversations.ts`. -/
structure Conversation where
  id : String
  title : String
  lastMessage : String
  timestamp : Nat
  messageCount : Nat
deriving DecidableEq

/-- The canned rule-1 reply of `generateMockResponse` (issues / bugs). -/
def issuesReply : String :=
  "I can help you with issues. Would you like me to:\n\n1. List open issues\n2. Search for specific issues\n3. Create a new issue\n4. Get details about a particular issue\n\nWhat would you like to do?"

/-- The canned rule-2 reply (statistics / metrics / velocity). -/
def statsReply : String :=
  "I can provide repository statistics and team velocity metrics. Let me fetch the latest data for you..."

/-- The canned rule-3 reply (pull requests). -/
def pullRequestsReply : String :=
  "I can help you with pull requests. Would you like me to:\n\n1. List open pull requests\n2. Review a specific PR\n3. Get PR details\n\nWhat would you like to do?"

/-- The canned rule-4 reply (labels). -/
def labelsReply : String :=
  "I can help you manage labels. Would you like to:\n\n1. List all labels\n2. Create a new label\n3. Update existing labels\n4. Get labels for a specific issue\n\nWhat would you like to do?"

/-- The no-rule-matched template, embedding the original input verbatim. -/
def fallbackReply (userMessage : String) : String :=
  "I understand you\x27re asking about \"" ++ userMessage ++
    "\". Let me help you with that. Could you provide more details about what you\x27d like me to do?"

/-- `generateMockResponse` from `src/routes/+page.svelte` (lines 117-131). -/
def generateMockResponse (userMessage : String) : String :=
  let lowerMessage := jsToLowerCase userMessage
  if jsIncludes lowerMessage "issue" || jsIncludes lowerMessage "bug" then
    issuesReply
  else if jsIncludes lowerMessage "stat" || jsIncludes lowerMessage "metric" ||
      jsIncludes lowerMessage "velocity" then
    statsReply
  else if jsIncludes lowerMessage "pull request" || jsIncludes lowerMessage "pr" then
    pullRequestsReply
  else if jsIncludes lowerMessage "label" then
    labelsReply
  else
    fallbackReply userMessage

/-! Mock data from `src/lib/data/conversations.ts`.  The module captures
`const now = Date.now()` at load time; that value is the parameter `t0`. -/

def thirtyMinutesAgo (t0 : Nat) : Nat := t0 - 1000 * 60 * 30

def twoHoursAgo (t0 : Nat) : Nat := t0 - 1000 * 60 * 60 * 2

def yesterday (t0 : Nat) : Nat := t0 - 1000 * 60 * 60 * 24

def threeDaysAgo (t0 : Nat) : Nat := t0 - 1000 * 60 * 60 * 24 * 3

def lastWeek (t0 : Nat) : Nat := t0 - 1000 * 60 * 60 * 24 * 7

/-- `mockConversations` from `src/lib/data/conversations.ts`. -/
def mockConversations (t0 : Nat) : List Conversation :=
  [ { id := "conv-1", title := "GitHub Issue Analysis",
      lastMessage := "I found 3 open issues related to authentication...",
      timestamp := thirtyMinutesAgo t0, messageCount := 4 },
    { id := "conv-2", title := "Repository Statistics",
      lastMessage := "The repository has 45 open issues and 12 pull requests.",
      timestamp := twoHoursAgo t0, messageCount := 6 },
    { id := "conv-3", title := "Team Velocity Metrics",
      lastMessage := "Based on the data, your team closed 23 issues this week.",
      timestamp := yesterday t0, messageCount := 5 },
    { id := "conv-4", title := "Codebase Query",
      lastMessage := "The authentication module is located in src/auth/",
      timestamp := threeDaysAgo t0, messageCount := 3 },
    { id := "conv-5", title := "Issue Creation Help",
      lastMessage := "I can help you create a new issue. What would you like to track?",
      timestamp := lastWeek t0, messageCount := 7 },
    { id := "conv-6", title := "Label Management",
      lastMessage := "All labels have been updated successfully.",
      timestamp := t0 - 1000 * 60 * 15, messageCount := 4 },
    { id := "conv-7", title := "Pull Request Review",
      lastMessage := "The PR #42 has been reviewed and approved.",
      timestamp := t0 - 1000 * 60 * 45, messageCount := 8 } ]

/-- `mockMessages` from `src/lib/data/conversations.ts`, as an association
list mirroring the `Record<string, ChatMessage[]>` object literal. -/
def mockMessages (t0 : Nat) : List (String × List ChatMessage) :=
  [ ("conv-1",
     [ { id := "msg-1-1", «from» := .user,
         content := "Can you analyze the open issues in the repository?",
         timestamp := thirtyMinutesAgo t0 - 1000 * 60 * 10, status := some .complete },
       { id := "msg-1-2", «from» := .model,
         content := "I\x27ll analyze the open issues for you. Let me fetch the data...",
         timestamp := thirtyMinutesAgo t0 - 1000 * 60 * 9, status := some .complete },
       { id := "msg-1-3", «from» := .user,
         content := "Focus on authentication-related issues",
         timestamp := thirtyMinutesAgo t0 - 1000 * 60 * 5, status := some .complete },
       { id := "msg-1-4", «from» := .model,
         content := "I found 3 open issues related to authentication:\n\n1. Issue #42: \"OAuth token refresh failing\"\n2. Issue #58: \"Session timeout too short\"\n3. Issue #71: \"Password reset email not sending\"\n\nWould you like me to get more details on any of these?",
         timestamp := thirtyMinutesAgo t0, status := some .complete } ]),
    ("conv-2",
     [ { id := "msg-2-1", «from» := .user,
         content := "Show me repository statistics",
         timestamp := twoHoursAgo t0 - 1000 * 60 * 20, status := some .complete },
       { id := "msg-2-2", «from» := .model,
         content := "Fetching repository statistics...",
         timestamp := twoHoursAgo t0 - 1000 * 60 * 19, status := some .complete },
       { id := "msg-2-3", «from» := .model,
         content := "Here are the current repository statistics:\n\n- Open Issues: 45\n- Closed Issues: 234\n- Open Pull Requests: 12\n- Merged Pull Requests: 189\n- Contributors: 28\n- Stars: 1,234",
         timestamp := twoHoursAgo t0 - 1000 * 60 * 18, status := some .complete },
       { id := "msg-2-4", «from» := .user,
         content := "What about the last 30 days?",
         timestamp := twoHoursAgo t0 - 1000 * 60 * 10, status := some .complete },
       { id := "msg-2-5", «from» := .model,
         content := "In the last 30 days:\n\n- 12 new issues opened\n- 18 issues closed\n- 5 new pull requests\n- 8 pull requests merged",
         timestamp := twoHoursAgo t0 - 1000 * 60 * 9, status := some .complete },
       { id := "msg-2-6", «from» := .model,
         content := "The repository has 45 open issues and 12 pull requests.",
         timestamp := twoHoursAgo t0, status := some .complete } ]),
    ("conv-3",
     [ { id := "msg-3-1", «from» := .user,
         content := "What\x27s our team velocity this week?",
         timestamp := yesterday t0 - 1000 * 60 * 30, status := some .complete },
       { id := "msg-3-2", «from» := .model,
         content := "Calculating team velocity metrics...",
         timestamp := yesterday t0 - 1000 * 60 * 29, status := some .complete },
       { id := "msg-3-3", «from» := .model,
         content := "Based on the data, your team closed 23 issues this week.",
         timestamp := yesterday t0, status := some .complete },
       { id := "msg-3-4", «from» := .user,
         content := "Compare to last week",
         timestamp := yesterday t0 - 1000 * 60 * 5, status := some .complete },
       { id := "msg-3-5", «from» := .model,
         content := "Last week your team closed 19 issues, so this week shows a 21% increase in velocity.",
         timestamp := yesterday t0 - 1000 * 60 * 4, status := some .complete } ]),
    ("conv-4",
     [ { id := "msg-4-1", «from» := .user,
         content := "Where is the authentication code located?",
         timestamp := threeDaysAgo t0 - 1000 * 60 * 15, status := some .complete },
       { id := "msg-4-2", «from» := .model,
         content := "Searching the codebase for authentication-related files...",
         timestamp := threeDaysAgo t0 - 1000 * 60 * 14, status := some .complete },
       { id := "msg-4-3", «from» := .model,
         content := "The authentication module is located in src/auth/",
         timestamp := threeDaysAgo t0, status := some .complete } ]),
    ("conv-5",
     [ { id := "msg-5-1", «from» := .user,
         content := "I need to create a new issue",
         timestamp := lastWeek t0 - 1000 * 60 * 45, status := some .complete },
       { id := "msg-5-2", «from» := .model,
         content := "I can help you create a new issue. What would you like to track?",
         timestamp := lastWeek t0, status := some .complete },
       { id := "msg-5-3", «from» := .user,
         content := "A bug in the login flow",
         timestamp := lastWeek t0 - 1000 * 60 * 40, status := some .complete },
       { id := "msg-5-4", «from» := .model,
         content := "I can create an issue for the login flow bug. Would you like me to:\n\n1. Create it now with a default title and description?\n2. Let you provide more details first?\n\nWhat would you prefer?",
         timestamp := lastWeek t0 - 1000 * 60 * 39, status := some .complete },
       { id := "msg-5-5", «from» := .user,
         content := "Let me provide more details",
         timestamp := lastWeek t0 - 1000 * 60 * 35, status := some .complete },
       { id := "msg-5-6", «from» := .model,
         content := "Please provide:\n- Title for the issue\n- Description of the bug\n- Steps to reproduce (if known)\n- Expected vs actual behavior",
         timestamp := lastWeek t0 - 1000 * 60 * 34, status := some .complete },
       { id := "msg-5-7", «from» := .user,
         content := "Title: Login fails with OAuth providers\nDescription: Users cannot log in using Google or GitHub OAuth",
         timestamp := lastWeek t0 - 1000 * 60 * 30, status := some .complete } ]),
    ("conv-6",
     [ { id := "msg-6-1", «from» := .user,
         content := "Update all bug labels to use \"bug\" instead of \"Bug\"",
         timestamp := t0 - 1000 * 60 * 20, status := some .complete },
       { id := "msg-6-2", «from» := .model,
         content := "I\x27ll update the label naming convention for you.",
         timestamp := t0 - 1000 * 60 * 19, status := some .complete },
       { id := "msg-6-3", «from» := .model,
         content := "All labels have been updated successfully.",
         timestamp := t0 - 1000 * 60 * 15, status := some .complete },
       { id := "msg-6-4", «from» := .user,
         content := "Thanks!",
         timestamp := t0 - 1000 * 60 * 14, status := some .complete } ]),
    ("conv-7",
     [ { id := "msg-7-1", «from» := .user,
         content := "Review pull request #42",
         timestamp := t0 - 1000 * 60 * 50, status := some .complete },
       { id := "msg-7-2", «from» := .model,
         content := "Analyzing pull request #42...",
         timestamp := t0 - 1000 * 60 * 49, status := some .complete },
       { id := "msg-7-3", «from» := .model,
         content := "PR #42 Summary:\n- Title: \"Add dark mode support\"\n- Author: @johndoe\n- Files changed: 12\n- Additions: +234 lines\n- Deletions: -45 lines\n- Status: Open",
         timestamp := t0 - 1000 * 60 * 48, status := some .complete },
       { id := "msg-7-4", «from» := .user,
         content := "What are the main changes?",
         timestamp := t0 - 1000 * 60 * 47, status := some .complete },
       { id := "msg-7-5", «from» := .model,
         content := "The main changes include:\n1. Added dark mode theme configuration\n2. Updated CSS variables for color schemes\n3. Added theme toggle component\n4. Updated all components to support dark mode",
         timestamp := t0 - 1000 * 60 * 46, status := some .complete },
       { id := "msg-7-6", «from» := .user,
         content := "Approve it",
         timestamp := t0 - 1000 * 60 * 45, status := some .complete },
       { id := "msg-7-7", «from» := .model,
         content := "The PR #42 has been reviewed and approved.",
         timestamp := t0 - 1000 * 60 * 45, status := some .complete },
       { id := "msg-7-8", «from» := .user,
         content := "Great!",
         timestamp := t0 - 1000 * 60 * 44, status := some .complete } ]) ]

/-- `generateConversationId` from `src/lib/data/conversations.ts`:
`` `conv-${Date.now()}` ``, with `Date.now()` passed in as `dateNow`. -/
def generateConversationId (dateNow : Nat) : String :=
  "conv-" ++ toString dateNow

/-! The page controller state of `src/routes/+page.svelte`: the four
`$state` variables that carry conversation and thread data (the DOM
handle `chatContainer` and the scrolling side effect are presentation
only and carry no state the claims mention). -/

structure PageState where
  conversations : List Conversation
  currentConversationId : Option String
  chatContent : List ChatMessage
  isProcessing : Bool
deriving DecidableEq

/-- `mockMessages[conversationId] || []`. -/
def lookupMockMessages (t0 : Nat) (conversationId : String) : List ChatMessage :=
  ((mockMessages t0).lookup conversationId).getD []

/-- `loadConversationMessages` (lines 27-31): replaces `chatContent` with
the statically recorded messages of `conversationId`, or `[]`. -/
def loadConversationMessages (t0 : Nat) (s : PageState) (conversationId : String) :
    PageState :=
  { s with chatContent := lookupMockMessages t0 conversationId }

/-- `handleSelectConversation` (lines 44-48). -/
def handleSelectConversation (t0 : Nat) (s : PageState) (id : String) : PageState :=
  let s1 := { s with currentConversationId := some id }
  let s2 := loadConversationMessages t0 s1 id
  { s2 with isProcessing := false }

/-- `handleCreateNew` (lines 50-63), with `Date.now()` as `dateNow`. -/
def handleCreateNew (s : PageState) (dateNow : Nat) : PageState :=
  let newId := generateConversationId dateNow
  let newConversation : Conversation :=
    { id := newId, title := "New Chat", lastMessage := "",
      timestamp := dateNow, messageCount := 0 }
  { s with conversations := newConversation :: s.conversations,
           currentConversationId := some newId,
           chatContent := [],
           isProcessing := false }

/-- `updateConversationMetadata` (lines 100-115).  The second argument is
`Option String` because the call on line 97 passes the nullable
`currentConversationId`; `some conv.id = conversationId` models the
strict equality `conv.id === conversationId`. -/
def updateConversationMetadata (s : PageState) (conversationId : Option String)
    (lastMessage : String) (dateNow : Nat) : PageState :=
  { s with conversations := s.conversations.map fun conv =>
      if some conv.id = conversationId then
        { conv with
          lastMessage :=
            if lastMessage.length > 60 then jsSubstringTo lastMessage 60 ++ "..."
            else lastMessage,
          timestamp := dateNow,
          messageCount := conv.messageCount + 1,
          title :=
            if conv.title = "New Chat" ∧ s.chatContent.length = 1 then
              if lastMessage.length > 30 then jsSubstringTo lastMessage 30 ++ "..."
              else lastMessage
            else conv.title }
      else conv }

/-- The synchronous part of `handleSendMessage` (lines 65-81), up to the
`await`.  The guard `!currentConversationId || !content.trim()` is falsy
exactly when the id is `null` or `""`, or the trimmed text is `""`. -/
def handleSendMessageStart (s : PageState) (content : String) (dateNow : Nat)
    (messageId : String) : PageState :=
  if s.currentConversationId.getD "" = "" ∨ jsTrim content = "" then s
  else
    let userMessage : ChatMessage :=
      { id := messageId, «from» := .user, content := jsTrim content,
        timestamp := dateNow, status := some .complete }
    let s1 := { s with chatContent := s.chatContent ++ [userMessage],
                       isProcessing := true }
    updateConversationMetadata s1 s.currentConversationId (jsTrim content) dateNow

/-- The delayed continuation of `handleSendMessage` (lines 85-97), run when
the timer fires.  `content` is the argument captured by the closure; the
metadata update on line 97 re-reads the *current* `currentConversationId`,
and the appends target the *current* `chatContent`. -/
def handleSendMessageResolve (s : PageState) (content : String) (dateNow : Nat)
    (messageId : String) : PageState :=
  let modelResponse : ChatMessage :=
    { id := messageId, «from» := .model, content := generateMockResponse content,
      timestamp := dateNow, status := some .complete }
  let s1 := { s with chatContent := s.chatContent ++ [modelResponse],
                     isProcessing := false }
  updateConversationMetadata s1 s1.currentConversationId modelResponse.content dateNow

/-- The conversation the sidebar shows as selected: the entry of
`conversations` whose `id` equals `currentConversationId`, if any. -/
def selectedConversation (s : PageState) : Option Conversation :=
  match s.currentConversationId with
  | none => none
  | some cid => s.conversations.find? fun c => c.id = cid

/-- One user-visible controller event.  `sendStart`/`sendResolve` are the
two halves of a `handleSendMessage` call, split at its `await`; the
environment-supplied `Date.now()` values and `generateMessageId()` results
are recorded in the event. -/
inductive Op where
  | select (id : String)
  | create (dateNow : Nat)
  | sendStart (content : String) (dateNow : Nat) (messageId : String)
  | sendResolve (content : String) (dateNow : Nat) (messageId : String)
deriving DecidableEq

def step (t0 : Nat) (s : PageState) : Op → PageState
  | .select id => handleSelectConversation t0 s id
  | .create dateNow => handleCreateNew s dateNow
  | .sendStart content dateNow messageId =>
      handleSendMessageStart s content dateNow messageId
  | .sendResolve content dateNow messageId =>
      handleSendMessageResolve s content dateNow messageId

/-- The state right after mount: the `$state` initializers (lines 14-17)
followed by the `$effect` (lines 20-25), which auto-selects the first
conversation when one exists and none is selected. -/
def initState (t0 : Nat) : PageState :=
  let s0 : PageState :=
    { conversations := mockConversations t0, currentConversationId := none,
      chatContent := [], isProcessing := false }
  match s0.conversations with
  | [] => s0
  | c :: _ =>
      loadConversationMessages t0 { s0 with currentConversationId := some c.id } c.id

/-- The state reached from mount by a sequence of events. -/
def run (t0 : Nat) (ops : List Op) : PageState :=
  ops.foldl (step t0) (initState t0)

/-! Helper lemmas about `updateConversationMetadata`. -/

@[simp] theorem updateConversationMetadata_chatContent (s : PageState)
    (target : Option String) (m : String) (t : Nat) :
    (updateConversationMetadata s target m t).chatContent = s.chatContent := rfl

@[simp] theorem updateConversationMetadata_currentConversationId (s : PageState)
    (target : Option String) (m : String) (t : Nat) :
    (updateConversationMetadata s target m t).currentConversationId
      = s.currentConversationId := rfl

@[simp] theorem updateConversationMetadata_isProcessing (s : PageState)
    (target : Option String) (m : String) (t : Nat) :
    (updateConversationMetadata s target m t).isProcessing = s.isProcessing := rfl

@[simp] theorem updateConversationMetadata_length (s : PageState)
    (target : Option String) (m : String) (t : Nat) :
    (updateConversationMetadata s target m t).conversations.length
      = s.conversations.length := by
  simp [updateConversationMetadata]

theorem updateConversationMetadata_map_id (s : PageState)
    (target : Option String) (m : String) (t : Nat) :
    (updateConversationMetadata s target m t).conversations.map Conversation.id
      = s.conversations.map Conversation.id := by
  simp only [updateConversationMetadata, List.map_map]
  refine List.map_congr_left fun conv _ => ?_
  by_cases h : some conv.id = target <;> simp [h]

theorem updateConversationMetadata_getElem?_messageCount (s : PageState)
    (target : Option String) (m : String) (t : Nat) (i : Nat) :
    ((updateConversationMetadata s target m t).conversations[i]?).map
        Conversation.messageCount
      = (s.conversations[i]?).map fun conv =>
          if some conv.id = target then conv.messageCount + 1 else conv.messageCount := by
  cases h : s.conversations[i]? with
  | none => simp [updateConversationMetadata, h]
  | some conv =>
      simp only [updateConversationMetadata, List.getElem?_map, h, Option.map_some']
      by_cases hc : some conv.id = target <;> simp [hc]

theorem updateConversationMetadata_getElem?_id (s : PageState)
    (target : Option String) (m : String) (t : Nat) (i : Nat) :
    ((updateConversationMetadata s target m t).conversations[i]?).map Conversation.id
      = (s.conversations[i]?).map Conversation.id := by
  cases h : s.conversations[i]? with
  | none => simp [updateConversationMetadata, h]
  | some conv =>
      simp only [updateConversationMetadata, List.getElem?_map, h, Option.map_some']
      by_cases hc : some conv.id = target <;> simp [hc]

theorem updateConversationMetadata_getElem? (s : PageState)
    (target : Option String) (m : String) (t : Nat) (i : Nat) :
    (updateConversationMetadata s target m t).conversations[i]?
      = (s.conversations[i]?).map fun conv =>
          if some conv.id = target then
            { conv with
              lastMessage :=
                if m.length > 60 then jsSubstringTo m 60 ++ "..." else m,
              timestamp := t,
              messageCount := conv.messageCount + 1,
              title :=
                if conv.title = "New Chat" ∧ s.chatContent.length = 1 then
                  if m.length > 30 then jsSubstringTo m 30 ++ "..." else m
                else conv.title }
          else conv := by
  simp [updateConversationMetadata, List.getElem?_map]

/-- C1: `generateMockResponse` is a pure function of its input that
lowercases it and tests the four keyword rules in priority order, returns
the fixed canned string of the first matching rule, and otherwise a
templated sentence embedding the original input verbatim; in particular
"bug in my pull request" hits rule 1 (issues), not rule 3 (pull requests). -/
theorem classify_priority_rules :
    (∀ msg : String,
      ((jsIncludes (jsToLowerCase msg) "issue"
          || jsIncludes (jsToLowerCase msg) "bug") = true →
        generateMockResponse msg = issuesReply) ∧
      ((jsIncludes (jsToLowerCase msg) "issue"
          || jsIncludes (jsToLowerCase msg) "bug") = false →
       (jsIncludes (jsToLowerCase msg) "stat"
          || jsIncludes (jsToLowerCase msg) "metric"
          || jsIncludes (jsToLowerCase msg) "velocity") = true →
        generateMockResponse msg = statsReply) ∧
      ((jsIncludes (jsToLowerCase msg) "issue"
          || jsIncludes (jsToLowerCase msg) "bug") = false →
       (jsIncludes (jsToLowerCase msg) "stat"
          || jsIncludes (jsToLowerCase msg) "metric"
          || jsIncludes (jsToLowerCase msg) "velocity") = false →
       (jsIncludes (jsToLowerCase msg) "pull request"
          || jsIncludes (jsToLowerCase msg) "pr") = true →
        generateMockResponse msg = pullRequestsReply) ∧
      ((jsIncludes (jsToLowerCase msg) "issue"
          || jsIncludes (jsToLowerCase msg) "bug") = false →
       (jsIncludes (jsToLowerCase msg) "stat"
          || jsIncludes (jsToLowerCase msg) "metric"
          || jsIncludes (jsToLowerCase msg) "velocity") = false →
       (jsIncludes (jsToLowerCase msg) "pull request"
          || jsIncludes (jsToLowerCase msg) "pr") = false →
       jsIncludes (jsToLowerCase msg) "label" = true →
        generateMockResponse msg = labelsReply) ∧
      ((jsIncludes (jsToLowerCase msg) "issue"
          || jsIncludes (jsToLowerCase msg) "bug") = false →
       (jsIncludes (jsToLowerCase msg) "stat"
          || jsIncludes (jsToLowerCase msg) "metric"
          || jsIncludes (jsToLowerCase msg) "velocity") = false →
       (jsIncludes (jsToLowerCase msg) "pull request"
          || jsIncludes (jsToLowerCase msg) "pr") = false →
       jsIncludes (jsToLowerCase msg) "label" = false →
        generateMockResponse msg = fallbackReply msg))
    ∧ generateMockResponse "bug in my pull request" = issuesReply
    ∧ issuesReply ≠ pullRequestsReply := by
  refine ⟨fun msg => ⟨?_, ?_, ?_, ?_, ?_⟩, by decide, by decide⟩ <;>
    · intros
      simp only [generateMockResponse]
      simp [*]

/-- Witness for C1: a concrete no-rule input lands in the fallback template. -/
theorem classify_priority_rules_witness :
    generateMockResponse "hello there" = fallbackReply "hello there" :=
  (classify_priority_rules.1 "hello there").2.2.2.2
    (by decide) (by decide) (by decide) (by decide)

/-- A minimal concrete state used to instantiate universally quantified
theorems: one fresh conversation `c1`, selected, with an empty thread. -/
def wState : PageState :=
  { conversations :=
      [ { id := "c1", title := "New Chat", lastMessage := "",
          timestamp := 0, messageCount := 0 } ],
    currentConversationId := some "c1",
    chatContent := [],
    isProcessing := false }

/-- C3: a send that passes the guard appends exactly one `user` message
(with the trimmed text) immediately and sets `isProcessing`; its delayed
continuation then appends exactly one `model` message and clears
`isProcessing`, so the thread grows in strict append order with the user
entry before the model entry. -/
theorem sendMessage_appends_user_then_model (s : PageState) (content : String)
    (t1 t2 : Nat) (m1 m2 cid : String)
    (hsel : s.currentConversationId = some cid) (hcid : cid ≠ "")
    (htrim : jsTrim content ≠ "") :
    (handleSendMessageStart s content t1 m1).chatContent
      = s.chatContent ++
          [ { id := m1, «from» := .user, content := jsTrim content,
              timestamp := t1, status := some .complete } ] ∧
    (handleSendMessageStart s content t1 m1).isProcessing = true ∧
    (handleSendMessageResolve (handleSendMessageStart s content t1 m1)
        content t2 m2).chatContent
      = s.chatContent ++
          [ { id := m1, «from» := .user, content := jsTrim content,
              timestamp := t1, status := some .complete },
            { id := m2, «from» := .model, content := generateMockResponse content,
              timestamp := t2, status := some .complete } ] ∧
    (handleSendMessageResolve (handleSendMessageStart s content t1 m1)
        content t2 m2).isProcessing = false := by
  have hguard : ¬(s.currentConversationId.getD "" = "" ∨ jsTrim content = "") := by
    simp [hsel, hcid, htrim]
  refine ⟨?_, ?_, ?_, ?_⟩ <;>
    simp [handleSendMessageStart, handleSendMessageResolve, hguard]

/-- Witness for C3 at the concrete state `wState` and text "hello". -/
theorem sendMessage_appends_user_then_model_witness :
    (handleSendMessageStart wState "hello" 1 "m1").chatContent
      = wState.chatContent ++
          [ { id := "m1", «from» := .user, content := jsTrim "hello",
              timestamp := 1, status := some .complete } ] ∧
    (handleSendMessageStart wState "hello" 1 "m1").isProcessing = true ∧
    (handleSendMessageResolve (handleSendMessageStart wState "hello" 1 "m1")
        "hello" 2 "m2").chatContent
      = wState.chatContent ++
          [ { id := "m1", «from» := .user, content := jsTrim "hello",
              timestamp := 1, status := some .complete },
            { id := "m2", «from» := .model, content := generateMockResponse "hello",
              timestamp := 2, status := some .complete } ] ∧
    (handleSendMessageResolve (handleSendMessageStart wState "hello" 1 "m1")
        "hello" 2 "m2").isProcessing = false :=
  sendMessage_appends_user_then_model wState "hello" 1 2 "m1" "m2" "c1"
    rfl (by decide) (by decide)

/-- C4: with no conversation selected (or a falsy empty-string id) or a
text that trims to empty, `handleSendMessage` returns before any state
write: the whole state, thread and metadata included, is unchanged, and
no exception path exists (the function is total). -/
theorem sendMessage_guard_noop (s : PageState) (content : String)
    (dateNow : Nat) (messageId : String)
    (h : s.currentConversationId = none ∨ jsTrim content = "") :
    handleSendMessageStart s content dateNow messageId = s := by
  rcases h with h | h <;> simp [handleSendMessageStart, h]

/-- Witness for C4: whitespace-only text on the freshly mounted state. -/
theorem sendMessage_guard_noop_witness :
    handleSendMessageStart (initState 0) "   " 0 "m0" = initState 0 :=
  sendMessage_guard_noop (initState 0) "   " 0 "m0" (Or.inr (by decide))

/-- C5: every metadata update increments the `messageCount` of the matching
conversation by exactly one (one increment per appended message, user or
model alike), and a full send exchange — guard-passing start followed by
its delayed continuation with the selection unchanged — increments the
`messageCount` of the owning conversation by exactly two. -/
theorem messageCount_one_per_append :
    (∀ (s : PageState) (target : Option String) (m : String) (t i : Nat),
      ((updateConversationMetadata s target m t).conversations[i]?).map
          Conversation.messageCount
        = (s.conversations[i]?).map fun conv =>
            if some conv.id = target then conv.messageCount + 1
            else conv.messageCount)
    ∧ (∀ (s : PageState) (content : String) (t1 t2 : Nat) (m1 m2 cid : String)
        (i : Nat) (conv : Conversation),
        s.currentConversationId = some cid → cid ≠ "" → jsTrim content ≠ "" →
        s.conversations[i]? = some conv → conv.id = cid →
        ((handleSendMessageResolve (handleSendMessageStart s content t1 m1)
            content t2 m2).conversations[i]?).map Conversation.messageCount
          = some (conv.messageCount + 2)) := by
  refine ⟨fun s target m t i => updateConversationMetadata_getElem?_messageCount .., ?_⟩
  intro s content t1 t2 m1 m2 cid i conv hsel hcid htrim hconv hid
  have hguard2 : ¬(cid = "" ∨ jsTrim content = "") := by simp [hcid, htrim]
  have hunfold : handleSendMessageStart s content t1 m1
      = updateConversationMetadata
          { conversations := s.conversations, currentConversationId := some cid,
            chatContent := s.chatContent ++
              [ { id := m1, «from» := .user, content := jsTrim content,
                  timestamp := t1, status := some .complete } ],
            isProcessing := true }
          (some cid) (jsTrim content) t1 := by
    simp [handleSendMessageStart, hsel, hguard2]
  have hcount1 : ((handleSendMessageStart s content t1 m1).conversations[i]?).map
      Conversation.messageCount = some (conv.messageCount + 1) := by
    rw [hunfold, updateConversationMetadata_getElem?_messageCount]
    simp [hconv, hid]
  have hid1 : ((handleSendMessageStart s content t1 m1).conversations[i]?).map
      Conversation.id = some cid := by
    rw [hunfold, updateConversationMetadata_getElem?_id]
    simp [hconv, hid]
  have hcur1 : (handleSendMessageStart s content t1 m1).currentConversationId
      = some cid := by
    rw [hunfold]; rfl
  cases h1 : (handleSendMessageStart s content t1 m1).conversations[i]? with
  | none => rw [h1] at hcount1; simp at hcount1
  | some conv1 =>
      rw [h1, Option.map_some'] at hcount1 hid1
      simp only [Option.some.injEq] at hcount1 hid1
      simp only [handleSendMessageResolve]
      rw [updateConversationMetadata_getElem?_messageCount]
      simp [h1, hcur1, hid1, hcount1]

/-- Witness for C5 at `wState`: the single conversation goes from zero to
two messages across one completed exchange. -/
theorem messageCount_one_per_append_witness :
    ((handleSendMessageResolve (handleSendMessageStart wState "hello" 1 "m1")
        "hello" 2 "m2").conversations[0]?).map Conversation.messageCount
      = some (0 + 2) := by
  have h := messageCount_one_per_append.2 wState "hello" 1 2 "m1" "m2" "c1" 0
    { id := "c1", title := "New Chat", lastMessage := "",
      timestamp := 0, messageCount := 0 }
    rfl (by decide) (by decide) rfl rfl
  exact h

/-- `wState` with one user message already in the thread, as after the
synchronous half of a send. -/
def wState1 : PageState :=
  { wState with chatContent :=
      [ { id := "m1", «from» := .user, content := "hi",
          timestamp := 1, status := some .complete } ] }

/-- C6 counterexample: send "xyzzy" in a fresh conversation, click
"New Chat" while the reply timer is pending, and let the timer fire.  The
new conversation `conv-200` has its title changed away from "New Chat" by
the delayed metadata update, but the new title is the 30-character
truncation of the canned model reply — not the sent text "xyzzy" (which is
under 30 characters and so, by the claim, should have become the title
verbatim, in its own conversation). -/
theorem title_set_from_model_reply :
    ((run 0 [Op.create 100, Op.sendStart "xyzzy" 101 "m1", Op.create 200,
        Op.sendResolve "xyzzy" 102 "m2"]).conversations.find?
          fun c => c.id = "conv-200").map Conversation.title
      = some "I understand you\x27re asking abo..." ∧
    ((run 0 [Op.create 100, Op.sendStart "xyzzy" 101 "m1", Op.create 200,
        Op.sendResolve "xyzzy" 102 "m2"]).conversations.find?
          fun c => c.id = "conv-200").map Conversation.messageCount
      = some 1 ∧
    "I understand you\x27re asking abo..." ≠ "xyzzy" ∧
    "I understand you\x27re asking abo..." ≠ jsSubstringTo "xyzzy" 30 ++ "..." := by
  refine ⟨by decide, by decide, by decide, by decide⟩

/-- C6 (amended): the title of a conversation, once different from
"New Chat", is never changed by a metadata update; and when an update does
change a title, the old title was "New Chat", the global thread had exactly
one message at update time, the conversation was the target of the update,
and the new title is the 30-character truncation (plus "...") of the
message text of that update — which is the trimmed sent text for the
synchronous update of a send, but can be the model reply text for the
delayed update when the selection changed mid-flight. -/
theorem title_change_characterization (s : PageState) (target : Option String)
    (m : String) (t i : Nat) (conv : Conversation)
    (hconv : s.conversations[i]? = some conv) :
    ∃ conv2,
      (updateConversationMetadata s target m t).conversations[i]? = some conv2 ∧
      (conv.title ≠ "New Chat" → conv2.title = conv.title) ∧
      (conv2.title ≠ conv.title →
        conv.title = "New Chat" ∧ s.chatContent.length = 1 ∧ some conv.id = target ∧
        conv2.title = if m.length > 30 then jsSubstringTo m 30 ++ "..." else m) := by
  rw [updateConversationMetadata_getElem?, hconv, Option.map_some']
  by_cases hc : some conv.id = target
  · rw [if_pos hc]
    by_cases hd : conv.title = "New Chat" ∧ s.chatContent.length = 1
    · refine ⟨_, rfl, ?_, ?_⟩
      · intro hne; exact absurd hd.1 hne
      · intro _hne
        refine ⟨hd.1, hd.2, hc, ?_⟩
        show (if conv.title = "New Chat" ∧ s.chatContent.length = 1 then
            if m.length > 30 then jsSubstringTo m 30 ++ "..." else m
          else conv.title) = _
        rw [if_pos hd]
    · refine ⟨_, rfl, ?_, ?_⟩
      · intro _
        show (if conv.title = "New Chat" ∧ s.chatContent.length = 1 then
            if m.length > 30 then jsSubstringTo m 30 ++ "..." else m
          else conv.title) = conv.title
        rw [if_neg hd]
      · intro hne
        exfalso
        apply hne
        show (if conv.title = "New Chat" ∧ s.chatContent.length = 1 then
            if m.length > 30 then jsSubstringTo m 30 ++ "..." else m
          else conv.title) = conv.title
        rw [if_neg hd]
  · rw [if_neg hc]
    exact ⟨conv, rfl, fun _ => rfl, fun hne => absurd rfl hne⟩

/-- Witness for the amended C6 theorem: with the user message in the
thread, the update retitles the fresh conversation to the short text. -/
theorem title_change_characterization_witness :
    ∃ conv2,
      (updateConversationMetadata wState1 (some "c1") "hi" 5).conversations[0]?
        = some conv2 ∧ conv2.title = "hi" := by
  obtain ⟨conv2, h1, -, -⟩ := title_change_characterization wState1 (some "c1") "hi" 5 0
    { id := "c1", title := "New Chat", lastMessage := "",
      timestamp := 0, messageCount := 0 } rfl
  have h2 : some
      ({ id := "c1", title := "hi", lastMessage := "hi", timestamp := 5,
         messageCount := 1 } : Conversation) = some conv2 := by
    rw [← h1]; decide
  injection h2 with h3
  exact ⟨conv2, h1, by rw [← h3]⟩

/-- C7: a metadata update sets the `lastMessage` of the target conversation
to the triggering text when that text is at most 60 characters and to its
first 60 characters followed by "..." otherwise, so the stored
`lastMessage` never exceeds 63 characters. -/
theorem lastMessage_truncation (s : PageState) (target : Option String)
    (m : String) (t i : Nat) (conv : Conversation)
    (hconv : s.conversations[i]? = some conv) (hmatch : some conv.id = target) :
    ∃ conv2,
      (updateConversationMetadata s target m t).conversations[i]? = some conv2 ∧
      conv2.lastMessage = (if m.length > 60 then jsSubstringTo m 60 ++ "..." else m) ∧
      conv2.lastMessage.length ≤ 63 := by
  rw [updateConversationMetadata_getElem?, hconv, Option.map_some', if_pos hmatch]
  refine ⟨_, rfl, rfl, ?_⟩
  show (if m.length > 60 then jsSubstringTo m 60 ++ "..." else m).length ≤ 63
  by_cases h : m.length > 60
  · rw [if_pos h]
    simp only [String.length_append, jsSubstringTo, String.length_mk, List.length_take]
    have h3 : ("..." : String).length = 3 := rfl
    rw [h3]
    omega
  · rw [if_neg h]
    omega

/-- Witness for C7 with a 70-character text: the stored summary is the
60-character prefix plus "...". -/
theorem lastMessage_truncation_witness :
    ∃ conv2,
      (updateConversationMetadata wState (some "c1")
          "0123456789012345678901234567890123456789012345678901234567890123456789"
          5).conversations[0]? = some conv2 ∧
      conv2.lastMessage
        = (if ("0123456789012345678901234567890123456789012345678901234567890123456789"
              : String).length > 60 then
            jsSubstringTo
              "0123456789012345678901234567890123456789012345678901234567890123456789"
              60 ++ "..."
          else
            "0123456789012345678901234567890123456789012345678901234567890123456789") ∧
      conv2.lastMessage.length ≤ 63 :=
  lastMessage_truncation wState (some "c1")
    "0123456789012345678901234567890123456789012345678901234567890123456789" 5 0
    { id := "c1", title := "New Chat", lastMessage := "",
      timestamp := 0, messageCount := 0 }
    rfl rfl

/-! Lemmas about the event semantics `step` / `run`. -/

/-- The ids generated by the `create` events of a trace, in event order. -/
def createdIds (ops : List Op) : List String :=
  ops.filterMap fun op =>
    match op with
    | Op.create dateNow => some (generateConversationId dateNow)
    | _ => none

theorem step_conversationIds (t0 : Nat) (s : PageState) (op : Op) :
    (step t0 s op).conversations.map Conversation.id
      = match op with
        | Op.create dateNow =>
            generateConversationId dateNow :: s.conversations.map Conversation.id
        | _ => s.conversations.map Conversation.id := by
  cases op with
  | select id => rfl
  | create dateNow => rfl
  | sendStart content dateNow messageId =>
      show (handleSendMessageStart s content dateNow messageId).conversations.map
          Conversation.id = s.conversations.map Conversation.id
      rw [handleSendMessageStart]
      split
      · rfl
      · exact updateConversationMetadata_map_id ..
  | sendResolve content dateNow messageId =>
      exact updateConversationMetadata_map_id ..

theorem foldl_conversationIds (t0 : Nat) (ops : List Op) (s : PageState) :
    ((ops.foldl (step t0) s).conversations.map Conversation.id)
      = (createdIds ops).reverse ++ s.conversations.map Conversation.id := by
  induction ops generalizing s with
  | nil => simp [createdIds]
  | cons op ops ih =>
      rw [List.foldl_cons, ih, step_conversationIds]
      cases op <;> simp [createdIds]

theorem initState_conversations (t0 : Nat) :
    (initState t0).conversations = mockConversations t0 := rfl

theorem mockConversations_ids (t0 : Nat) :
    (mockConversations t0).map Conversation.id
      = ["conv-1", "conv-2", "conv-3", "conv-4", "conv-5", "conv-6", "conv-7"] := rfl

theorem run_conversationIds (t0 : Nat) (ops : List Op) :
    (run t0 ops).conversations.map Conversation.id
      = (createdIds ops).reverse ++ (mockConversations t0).map Conversation.id := by
  rw [run, foldl_conversationIds, initState_conversations]

/-- `mockMessages` only records threads for the seeded conversation ids. -/
theorem lookupMockMessages_eq_nil (t0 : Nat) (id : String)
    (h : id ∉ (mockConversations t0).map Conversation.id) :
    lookupMockMessages t0 id = [] := by
  rw [mockConversations_ids] at h
  simp only [List.mem_cons, List.not_mem_nil, or_false, not_or] at h
  obtain ⟨h1, h2, h3, h4, h5, h6, h7⟩ := h
  have e1 : (id == "conv-1") = false := beq_eq_false_iff_ne.mpr h1
  have e2 : (id == "conv-2") = false := beq_eq_false_iff_ne.mpr h2
  have e3 : (id == "conv-3") = false := beq_eq_false_iff_ne.mpr h3
  have e4 : (id == "conv-4") = false := beq_eq_false_iff_ne.mpr h4
  have e5 : (id == "conv-5") = false := beq_eq_false_iff_ne.mpr h5
  have e6 : (id == "conv-6") = false := beq_eq_false_iff_ne.mpr h6
  have e7 : (id == "conv-7") = false := beq_eq_false_iff_ne.mpr h7
  simp [lookupMockMessages, mockMessages, List.lookup, e1, e2, e3, e4, e5, e6, e7]

/-! Refined model of `mockMessages[conversationId]` as a JavaScript
property read.  `mockMessages` is a plain object literal, so a read that
misses the own keys `conv-1` … `conv-7` continues along the prototype
chain: for the member names of `Object.prototype` it yields the inherited
member — a function or object, hence truthy — so the `|| []` default does
not apply and the array spread on line 29 throws a `TypeError`; only a
genuine miss yields `undefined` and falls back to `[]`. -/

/-- The ECMAScript-mandated member names of `Object.prototype` (including
the Annex B accessors). -/
def objectProtoProps : List String :=
  ["constructor", "hasOwnProperty", "isPrototypeOf", "propertyIsEnumerable",
   "toLocaleString", "toString", "valueOf", "__defineGetter__",
   "__defineSetter__", "__lookupGetter__", "__lookupSetter__", "__proto__"]

/-- Outcome of the property read `mockMessages[conversationId]`: an own
key yields its message array, an `Object.prototype` member name yields the
inherited truthy non-array member, anything else yields `undefined`. -/
inductive JsLookup where
  | own (messages : List ChatMessage)
  | inherited
  | undefined
deriving DecidableEq

def jsIndexMockMessages (t0 : Nat) (conversationId : String) : JsLookup :=
  match (mockMessages t0).lookup conversationId with
  | some messages => .own messages
  | none => if conversationId ∈ objectProtoProps then .inherited else .undefined

/-- `loadConversationMessages` (lines 27-31) with its JavaScript error
path: an inherited prototype member survives `|| []` (it is truthy) and is
not iterable, so `chatContent = [...messages]` throws a `TypeError`. -/
def loadConversationMessagesChecked (t0 : Nat) (s : PageState)
    (conversationId : String) : Except String PageState :=
  match jsIndexMockMessages t0 conversationId with
  | .own messages => .ok { s with chatContent := messages }
  | .inherited => .error "TypeError: messages is not iterable"
  | .undefined => .ok { s with chatContent := [] }

/-- `handleSelectConversation` (lines 44-48) with the error path: line 45
has already overwritten `currentConversationId` when line 46 throws, and
line 47 is then never reached; the exception propagates to the caller. -/
def handleSelectConversationChecked (t0 : Nat) (s : PageState) (id : String) :
    Except String PageState :=
  let s1 := { s with currentConversationId := some id }
  match loadConversationMessagesChecked t0 s1 id with
  | .error e => .error e
  | .ok s2 => .ok { s2 with isProcessing := false }

/-- Away from the `Object.prototype` member names the checked selection
succeeds and agrees with the total model used elsewhere in this file. -/
theorem handleSelectConversationChecked_agrees (t0 : Nat) (s : PageState)
    (id : String) (hp : id ∉ objectProtoProps) :
    handleSelectConversationChecked t0 s id
      = .ok (handleSelectConversation t0 s id) := by
  simp only [handleSelectConversationChecked, loadConversationMessagesChecked,
    jsIndexMockMessages, handleSelectConversation, loadConversationMessages,
    lookupMockMessages]
  cases h : (mockMessages t0).lookup id with
  | some messages => simp [h]
  | none => simp [h, hp]

/-- C8 counterexample: "toString" references no existing conversation on
the freshly mounted state, yet selecting it does not quietly select "no
conversation": the property read hits the inherited
`Object.prototype.toString`, the `|| []` default is skipped, and the
array spread throws a `TypeError` instead of emptying the thread. -/
theorem select_toString_throws :
    "toString" ∉ (run 0 []).conversations.map Conversation.id ∧
    handleSelectConversationChecked 0 (run 0 []) "toString"
      = .error "TypeError: messages is not iterable" :=
  ⟨by decide, rfl⟩

/-- C8 (amended): selecting an id that matches no conversation in any
reachable state and is not an `Object.prototype` member name raises no
error, leaves no conversation selected (the selected sidebar entry is
`none`), and empties the visible thread; for the prototype member names
(`toString`, `constructor`, `valueOf`, …) the selection instead throws a
`TypeError` after the selected id has already been overwritten. -/
theorem select_unknown_nonproto_is_no_conversation (t0 : Nat) (ops : List Op)
    (id : String)
    (h : id ∉ (run t0 ops).conversations.map Conversation.id)
    (hp : id ∉ objectProtoProps) :
    handleSelectConversationChecked t0 (run t0 ops) id
      = .ok (handleSelectConversation t0 (run t0 ops) id) ∧
    selectedConversation (handleSelectConversation t0 (run t0 ops) id) = none ∧
    (handleSelectConversation t0 (run t0 ops) id).chatContent = [] := by
  refine ⟨handleSelectConversationChecked_agrees t0 (run t0 ops) id hp, ?_, ?_⟩
  · show (run t0 ops).conversations.find? (fun c => c.id = id) = none
    rw [List.find?_eq_none]
    intro c hc hdec
    exact h (List.mem_map.mpr ⟨c, hc, of_decide_eq_true hdec⟩)
  · show lookupMockMessages t0 id = []
    apply lookupMockMessages_eq_nil
    intro hmem
    apply h
    rw [run_conversationIds]
    exact List.mem_append_right _ hmem

/-- Witness for the amended C8 theorem: the unknown, non-prototype id
"nope" on the mounted state. -/
theorem select_unknown_nonproto_is_no_conversation_witness :
    handleSelectConversationChecked 0 (run 0 []) "nope"
      = .ok (handleSelectConversation 0 (run 0 []) "nope") ∧
    selectedConversation (handleSelectConversation 0 (run 0 []) "nope") = none ∧
    (handleSelectConversation 0 (run 0 []) "nope").chatContent = [] :=
  select_unknown_nonproto_is_no_conversation 0 [] "nope" (by decide) (by decide)

/-- C9 counterexample: `generateConversationId` is `Date.now()`-based, so
two `createConversation` calls in the same millisecond mint the same id
`conv-42` and the conversation list holds duplicate ids. -/
theorem duplicate_ids_same_millisecond :
    ¬ ((run 0 [Op.create 42, Op.create 42]).conversations.map
        Conversation.id).Nodup := by
  decide

/-- C9 (amended): conversation ids are pairwise distinct provided the
`Date.now()` values of the `create` events mint pairwise-distinct ids that
also avoid the seeded ids `conv-1` … `conv-7`; uniqueness is not
unconditional, since equal timestamps (two creations in one millisecond)
mint equal ids. -/
theorem conversation_ids_pairwise_distinct (t0 : Nat) (ops : List Op)
    (h1 : (createdIds ops).Nodup)
    (h2 : ∀ x ∈ createdIds ops, x ∉ (mockConversations t0).map Conversation.id) :
    ((run t0 ops).conversations.map Conversation.id).Nodup := by
  rw [run_conversationIds, List.nodup_append]
  refine ⟨List.nodup_reverse.mpr h1, ?_, ?_⟩
  · rw [mockConversations_ids]
    decide
  · intro x hx hmem
    exact h2 x (List.mem_reverse.mp hx) hmem

/-- Witness for the amended C9 theorem: two creations at distinct times. -/
theorem conversation_ids_pairwise_distinct_witness :
    ((run 0 [Op.create 42, Op.create 43]).conversations.map
        Conversation.id).Nodup :=
  conversation_ids_pairwise_distinct 0 [Op.create 42, Op.create 43]
    (by decide) (by decide)

/-- C10: a metadata update never touches `chatContent`,
`currentConversationId` or `isProcessing`; it preserves the length and
positional order of `conversations`; every conversation whose id is not
the target keeps its exact value at its position; and when no conversation
matches, the list is unchanged entirely. -/
theorem updateConversationMetadata_frame (s : PageState) (target : Option String)
    (m : String) (t : Nat) :
    (updateConversationMetadata s target m t).chatContent = s.chatContent ∧
    (updateConversationMetadata s target m t).currentConversationId
      = s.currentConversationId ∧
    (updateConversationMetadata s target m t).isProcessing = s.isProcessing ∧
    (updateConversationMetadata s target m t).conversations.length
      = s.conversations.length ∧
    (∀ (i : Nat) (conv : Conversation), s.conversations[i]? = some conv →
      some conv.id ≠ target →
      (updateConversationMetadata s target m t).conversations[i]? = some conv) ∧
    ((∀ conv ∈ s.conversations, some conv.id ≠ target) →
      (updateConversationMetadata s target m t).conversations = s.conversations) := by
  refine ⟨rfl, rfl, rfl, by simp, ?_, ?_⟩
  · intro i conv hconv hne
    rw [updateConversationMetadata_getElem?, hconv, Option.map_some', if_neg hne]
  · intro hall
    simp only [updateConversationMetadata]
    exact (List.map_congr_left fun conv hc => if_neg (hall conv hc)).trans
      (List.map_id _)

/-- Witness for C10: updating with a target matching no conversation. -/
theorem updateConversationMetadata_frame_witness :
    (updateConversationMetadata wState (some "zzz") "x" 9).conversations
      = wState.conversations :=
  (updateConversationMetadata_frame wState (some "zzz") "x" 9).2.2.2.2.2 (by decide)

/-- The C2 failing schedule: send "hello" while `conv-2` is selected, then
select `conv-3` before the reply timer fires. -/
def c2Trace : List Op :=
  [Op.select "conv-2", Op.sendStart "hello" 10 "m1", Op.select "conv-3",
   Op.sendResolve "hello" 11 "m2"]

/-- C2 fails on the code: the delayed continuation re-reads
`currentConversationId` when the timer fires (line 97) instead of using the
id captured at call time, and appends the reply to the currently displayed
thread.  On `c2Trace` the metadata update of the reply lands on `conv-3`
(messageCount 5 → 6, `lastMessage` set to the truncated canned reply) while
the originating `conv-2` receives only the synchronous update
(messageCount 6 → 7, `lastMessage` "hello"), and the reply message itself
is appended to the displayed thread of `conv-3`. -/
theorem delayed_update_follows_current_selection :
    ((run 0 c2Trace).conversations.find? fun c => c.id = "conv-3").map
        Conversation.lastMessage
      = some (jsSubstringTo (generateMockResponse "hello") 60 ++ "...") ∧
    ((run 0 c2Trace).conversations.find? fun c => c.id = "conv-2").map
        Conversation.lastMessage = some "hello" ∧
    ((run 0 c2Trace).conversations.find? fun c => c.id = "conv-2").map
        Conversation.messageCount = some 7 ∧
    ((run 0 c2Trace).conversations.find? fun c => c.id = "conv-3").map
        Conversation.messageCount = some 6 ∧
    ((run 0 c2Trace).chatContent.getLast?).map ChatMessage.content
      = some (generateMockResponse "hello") := by
  refine ⟨by decide, by decide, by decide, by decide, by decide⟩

end Ticket
